import Mathlib

/-!
Verification development for the volume snapshot cache manager of the
runs-on action (internal/snapshot/snapshot.go).

The Go code orchestrates EBS snapshots and volumes: `RestoreSnapshot`
locates the latest completed snapshot for the branch cache key (falling
back to the default branch), provisions a volume (cloned or blank),
attaches it, resolves the OS device, formats blank volumes, mounts the
device, restarts docker and probes its health; `CreateSnapshot` reverses
this and snapshots the volume.

The embedding models every external effect (EC2 API calls, shell
commands) through an environment record fixing the outcome of each call,
and records the calls the code issues as a trace of `Event`s.  The Go
function-scoped `err` variable consulted by the deferred volume cleanup
in `RestoreSnapshot` is tracked faithfully, including which statements
assign it and which shadow it with a block-local `err`.
-/

/-- Tag key used to mark snapshots/volumes with the branch cache key
(snapshot.go line 23). -/
def snapshotBranchTagKey : String := "runs-on-snapshot-branch"

/-- Tag key used to mark snapshots/volumes with the repository
(snapshot.go line 24). -/
def snapshotRepositoryTagKey : String := "runs-on-snapshot-repository"

/-- Default volume size in GiB (snapshot.go line 29, `defaultVolumeSizeGiB`). -/
def defaultVolumeSizeGiB : Int := 40

/-- A key/value tag, mirroring `config.Tag`. -/
structure Tag where
  key : String
  value : String
  deriving DecidableEq, Repr

/-- Mirror of `SnapshotterConfig` (snapshot.go lines 85-96); only the
fields the modelled code reads are kept. -/
structure SnapshotterConfig where
  version : String
  githubRef : String
  githubRepository : String
  instanceId : String
  az : String
  waitForSnapshotCompletion : Bool
  defaultBranch : String
  customTags : List Tag
  deriving DecidableEq, Repr

/-- Mirror of `VolumeInfo` (snapshot.go lines 71-76). -/
structure VolumeInfo where
  volumeId : String
  deviceName : String
  mountPoint : String
  attachmentId : String
  deriving DecidableEq, Repr

/-- Mirror of `RestoreSnapshotOutput` (snapshot.go lines 153-156). -/
structure RestoreSnapshotOutput where
  volumeId : String
  deviceName : String
  deriving DecidableEq, Repr

/-- Mirror of `CreateSnapshotOutput` (snapshot.go lines 468-470). -/
structure CreateSnapshotOutput where
  snapshotId : String
  deriving DecidableEq, Repr

/-- EC2 snapshot state (the code only distinguishes `completed`). -/
inductive SnapshotState where
  | pending
  | completed
  | error
  deriving DecidableEq, Repr

/-- An EC2 snapshot as seen through `DescribeSnapshots`: id, start time
(abstracted to a Nat timestamp), source-volume size in GiB (`nil` able,
as in the SDK), its tags and its state. -/
structure SnapshotRecord where
  snapshotId : String
  startTime : Nat
  volumeSize : Option Int
  tags : List Tag
  status : SnapshotState
  deriving DecidableEq, Repr

/-- Externally visible calls issued by the code, in order. -/
inductive Event where
  | describeSnapshotsCall (branchTagValue : String)
  | createVolumeFromSnapshot (snapshotId : String)
  | createBlankVolume
  | waitVolumeAvailable (volumeId : String)
  | attachVolumeCall (volumeId : String)
  | waitVolumeInUse (volumeId : String)
  | describeVolumesCall (volumeId : String)
  | runCmd (name : String) (args : List String)
  | saveInfo (info : VolumeInfo)
  | deleteVolumeCall (volumeId : String)
  | detachVolumeCall (volumeId : String)
  | createSnapshotCall (volumeId : String)
  | waitSnapshotCompleted (snapshotId : String)
  deriving DecidableEq, Repr

/-- Recognizes the `mkfs.ext4` formatting command (snapshot.go line 430). -/
def Event.isMkfs : Event → Bool
  | Event.runCmd _ ("mkfs.ext4" :: _) => true
  | _ => false

/-- Recognizes the `mount` command (snapshot.go line 442). -/
def Event.isMount : Event → Bool
  | Event.runCmd _ ("mount" :: _) => true
  | _ => false

/-- Recognizes persistence of the VolumeInfo record (snapshot.go line 424). -/
def Event.isSaveInfo : Event → Bool
  | Event.saveInfo _ => true
  | _ => false

/-- Recognizes an EC2 `DeleteVolume` call. -/
def Event.isDeleteVolume : Event → Bool
  | Event.deleteVolumeCall _ => true
  | _ => false

/-- `getSnapshotTagValue` (snapshot.go lines 202-204). -/
def getSnapshotTagValue (cfg : SnapshotterConfig) : String :=
  cfg.version ++ "-" ++ cfg.githubRef

/-- `getSnapshotTagValueDefaultBranch` (snapshot.go lines 206-208). -/
def getSnapshotTagValueDefaultBranch (cfg : SnapshotterConfig) : String :=
  cfg.version ++ "-" ++ cfg.defaultBranch

/-- The tag/status filters sent to `DescribeSnapshots` (snapshot.go lines
222-229): branch tag, repository tag, completed status, plus every
configured custom tag. -/
def snapshotMatchesFilters (branchTagValue repo : String) (customTags : List Tag)
    (s : SnapshotRecord) : Bool :=
  s.tags.contains ⟨snapshotBranchTagKey, branchTagValue⟩ &&
  s.tags.contains ⟨snapshotRepositoryTagKey, repo⟩ &&
  s.status == SnapshotState.completed &&
  customTags.all (fun t => s.tags.contains t)

/-- Result of a `DescribeSnapshots` call against the world of existing
snapshots, with the filters of snapshot.go lines 222-229. -/
def describeSnapshotsByTag (world : List SnapshotRecord) (branchTagValue repo : String)
    (customTags : List Tag) : List SnapshotRecord :=
  world.filter (snapshotMatchesFilters branchTagValue repo customTags)

/-- The latest-snapshot selection loop (snapshot.go lines 240-247 and
262-268): start from the first element, replace whenever a snapshot has
a strictly later start time. Returns `none` on an empty query result. -/
def findLatestSnapshot (snaps : List SnapshotRecord) : Option SnapshotRecord :=
  match snaps with
  | [] => none
  | first :: _ =>
      some (snaps.foldl
        (fun latest snap => if latest.startTime < snap.startTime then snap else latest)
        first)

/-- The snapshot lookup of `RestoreSnapshot` (snapshot.go lines 222-273):
query completed snapshots for the branch cache key; if none and a default
branch is configured, query again with the default-branch cache key. -/
def locateSnapshot (cfg : SnapshotterConfig) (world : List SnapshotRecord) :
    Option SnapshotRecord :=
  match findLatestSnapshot
      (describeSnapshotsByTag world (getSnapshotTagValue cfg)
        cfg.githubRepository cfg.customTags) with
  | some s => some s
  | none =>
      if cfg.defaultBranch != "" then
        findLatestSnapshot
          (describeSnapshotsByTag world (getSnapshotTagValueDefaultBranch cfg)
            cfg.githubRepository cfg.customTags)
      else none

/-- The clone-or-blank decision of snapshot.go line 285: use the snapshot
only if it exists, reports a source volume size, and that size is at
least `defaultVolumeSizeGiB`. -/
def snapshotSizeSufficient (s : SnapshotRecord) : Bool :=
  match s.volumeSize with
  | some size => decide (defaultVolumeSizeGiB ≤ size)
  | none => false

/-- `strings.SplitN(line, " ", 2)`: split at the first space only; a line
with no space yields a single field. -/
def splitN2 (line : String) : List String :=
  let before := line.toList.takeWhile (fun c => !(c == ' '))
  match line.toList.dropWhile (fun c => !(c == ' ')) with
  | [] => [String.mk before]
  | _ :: after => [String.mk before, String.mk after]

/-- The lsblk output scan of snapshot.go lines 406-415: for each line,
split into PATH and MODEL at the first space; the last line whose MODEL
is "Amazon Elastic Block Store" overrides the device name. -/
def resolveDeviceName (lines : List String) (initial : String) : String :=
  lines.foldl
    (fun acc line =>
      match splitN2 line with
      | [path, model] =>
          if model == "Amazon Elastic Block Store" then path else acc
      | _ => acc)
    initial

/-- Outcomes of the external calls `RestoreSnapshot` makes, fixing one
execution.  `attachmentDevice` is `some d` when the `DescribeVolumes`
re-query of snapshot.go lines 378-384 succeeds with a non-empty
attachment list reporting device `d`; `lsblkLines` is the (trimmed,
line-split) combined output of lsblk, available even when the command
fails, as Go's `CombinedOutput` returns it alongside the error. -/
structure RestoreEnv where
  world : List SnapshotRecord
  describePrimaryOk : Bool
  describeDefaultOk : Bool
  createVolumeResult : Option String
  waitAvailableOk : Bool
  attachResult : Option String
  waitInUseOk : Bool
  attachmentDevice : Option String
  lsblkOk : Bool
  lsblkLines : List String
  mkfsOk : Bool
  mkdirOk : Bool
  mountOk : Bool
  startDockerOk : Bool
  dockerDfOk : Bool
  deleteVolumeOk : Bool
  deriving DecidableEq, Repr

/-- The formatting/mount/probe tail of `RestoreSnapshot` (snapshot.go
lines 428-464), together with the deferred cleanup registered at line
328, which runs at every one of these exits.  The deferred function
deletes the volume iff the function-scoped `err` is non-nil at exit;
every statement in this region (lines 430/437/442/448/454/457, all
`if _, err := s.runCommand`, and line 424's `if err := s.saveVolumeInfo`)
declares a block-local `err` and does NOT touch the function-scoped one,
whose value here is the one set by line 402's `lsblkOutput, err :=`
(`:=` at function block level with one new variable reuses `err`).
So `outerErrSet` is `!lsblkOk` throughout this phase, and the deferred
delete fires exactly when `outerErrSet` is true — both on the error
exits and on the successful return at line 464. -/
def mountPhase (env : RestoreEnv) (mountPoint volumeId actualDeviceName : String)
    (volumeIsNewAndUnformatted : Bool) (outerErrSet : Bool) :
    Option RestoreSnapshotOutput × List Event :=
  let withCleanup : List Event → List Event := fun tr =>
    if outerErrSet then tr ++ [Event.deleteVolumeCall volumeId] else tr
  let tr : List Event :=
    if volumeIsNewAndUnformatted then
      [Event.runCmd "sudo" ["mkfs.ext4", "-F", actualDeviceName]]
    else []
  if volumeIsNewAndUnformatted && !env.mkfsOk then
    (none, withCleanup tr)
  else
    let tr := tr ++ [Event.runCmd "sudo" ["mkdir", "-p", mountPoint]]
    if env.mkdirOk then
      let tr := tr ++ [Event.runCmd "sudo" ["mount", actualDeviceName, mountPoint]]
      if env.mountOk then
        let tr := tr ++ [Event.runCmd "sudo" ["systemctl", "start", "docker"]]
        if env.startDockerOk then
          let tr := tr ++ [Event.runCmd "sudo" ["docker", "system", "df"]]
          if env.dockerDfOk then
            (some ⟨volumeId, actualDeviceName⟩, withCleanup tr)
          else
            (none, withCleanup (tr ++ [Event.runCmd "sudo" ["umount", "/var/lib/docker"]]))
        else (none, withCleanup tr)
      else (none, withCleanup tr)
    else (none, withCleanup tr)

/-- Steps of `RestoreSnapshot` between volume creation and the
formatting decision (snapshot.go lines 342-426), combined with
`mountPhase` (lines 428-464).  The early-return traces spell out the
deferred cleanup directly: the attach failure (line 352) and the in-use
wait failure (line 364) leave the function-scoped `err` non-nil, so
their traces end with the deferred `DeleteVolume`; the available-wait
failure (line 345, shadowed `err`) and the device re-query failure
(line 383, function-scoped `err` nil after line 364 succeeded) do not. -/
def restoreAfterCreate (env : RestoreEnv) (mountPoint : String) (volumeId : String)
    (volumeIsNewAndUnformatted : Bool) : Option RestoreSnapshotOutput × List Event :=
  if env.waitAvailableOk then
    match env.attachResult with
    | none =>
        (none, [Event.waitVolumeAvailable volumeId, Event.attachVolumeCall volumeId,
                Event.deleteVolumeCall volumeId])
    | some _suggestedDevice =>
      if env.waitInUseOk then
        match env.attachmentDevice with
        | none =>
            (none, [Event.waitVolumeAvailable volumeId, Event.attachVolumeCall volumeId,
                    Event.waitVolumeInUse volumeId, Event.describeVolumesCall volumeId])
        | some attachedDevice =>
          let outerErrSet := !env.lsblkOk
          let actualDeviceName := resolveDeviceName env.lsblkLines attachedDevice
          let pre : List Event :=
            [Event.waitVolumeAvailable volumeId, Event.attachVolumeCall volumeId,
             Event.waitVolumeInUse volumeId, Event.describeVolumesCall volumeId,
             Event.runCmd "sudo" ["systemctl", "stop", "docker"],
             Event.runCmd "sudo" ["umount", mountPoint],
             Event.runCmd "lsblk" ["-d", "-n", "-o", "PATH,MODEL"],
             Event.saveInfo ⟨volumeId, actualDeviceName, mountPoint, ""⟩]
          let r := mountPhase env mountPoint volumeId actualDeviceName
            volumeIsNewAndUnformatted outerErrSet
          (r.1, pre ++ r.2)
      else
        (none, [Event.waitVolumeAvailable volumeId, Event.attachVolumeCall volumeId,
                Event.waitVolumeInUse volumeId, Event.deleteVolumeCall volumeId])
  else (none, [Event.waitVolumeAvailable volumeId])

/-- The blank-volume branch of snapshot.go lines 307-326 followed by the
post-creation steps; `volumeIsNewAndUnformatted` is true. -/
def provisionBlankAndMount (env : RestoreEnv) (mountPoint : String) :
    Option RestoreSnapshotOutput × List Event :=
  let tr := [Event.createBlankVolume]
  match env.createVolumeResult with
  | none => (none, tr)
  | some volumeId =>
      let r := restoreAfterCreate env mountPoint volumeId true
      (r.1, tr ++ r.2)

/-- The provisioning decision of snapshot.go lines 284-326 followed by the
post-creation steps: clone the located snapshot only when it reports a
size of at least `defaultVolumeSizeGiB`, otherwise create a blank volume
(`volumeIsNewAndUnformatted` true). -/
def provisionAndMount (env : RestoreEnv) (mountPoint : String)
    (latestSnapshot : Option SnapshotRecord) :
    Option RestoreSnapshotOutput × List Event :=
  match latestSnapshot with
  | some snap =>
      if snapshotSizeSufficient snap then
        let tr := [Event.createVolumeFromSnapshot snap.snapshotId]
        match env.createVolumeResult with
        | none => (none, tr)
        | some volumeId =>
            let r := restoreAfterCreate env mountPoint volumeId false
            (r.1, tr ++ r.2)
      else provisionBlankAndMount env mountPoint
  | none => provisionBlankAndMount env mountPoint

/-- `RestoreSnapshot` (snapshot.go lines 213-465): the primary
`DescribeSnapshots` query always runs (failure is fatal); the
default-branch query runs only when the primary result is empty and a
default branch is configured (failure fatal); the selected snapshot is
`locateSnapshot`; then the volume is provisioned and mounted. -/
def restoreSnapshot (cfg : SnapshotterConfig) (env : RestoreEnv) (mountPoint : String) :
    Option RestoreSnapshotOutput × List Event :=
  let primary := describeSnapshotsByTag env.world (getSnapshotTagValue cfg)
    cfg.githubRepository cfg.customTags
  let usesDefaultQuery := (findLatestSnapshot primary).isNone && cfg.defaultBranch != ""
  if env.describePrimaryOk then
    if usesDefaultQuery && !env.describeDefaultOk then
      (none, [Event.describeSnapshotsCall (getSnapshotTagValue cfg),
              Event.describeSnapshotsCall (getSnapshotTagValueDefaultBranch cfg)])
    else
      let tr := [Event.describeSnapshotsCall (getSnapshotTagValue cfg)] ++
        (if usesDefaultQuery then
          [Event.describeSnapshotsCall (getSnapshotTagValueDefaultBranch cfg)]
         else [])
      let r := provisionAndMount env mountPoint (locateSnapshot cfg env.world)
      (r.1, tr ++ r.2)
  else (none, [Event.describeSnapshotsCall (getSnapshotTagValue cfg)])

/-- Outcomes of the external calls `CreateSnapshot` makes.  `savedInfo`
is the result of `loadVolumeInfo` (none = read/parse failure);
`dfResult` is `some output` when the `df mountPoint` check command
succeeds, `none` when it fails. -/
structure CreateEnv where
  savedInfo : Option VolumeInfo
  umountOk : Bool
  dfResult : Option String
  detachOk : Bool
  waitDetachOk : Bool
  createSnapshotResult : Option String
  waitCompletedOk : Bool
  deleteVolumeOk : Bool
  deriving DecidableEq, Repr

/-- Go's `strings.Contains`. -/
def goStringContains (s pattern : String) : Bool :=
  decide (pattern.toList <:+: s.toList)

/-- `CreateSnapshot` (snapshot.go lines 474-571): load the VolumeInfo
record (fatal if absent), prune and stop docker (best-effort), unmount
the mount point — on unmount failure run `df mountPoint` and escalate to
fatal only when that check succeeds and its output still contains the
mount point (lines 495-504) — detach the volume and wait, create the
snapshot, and, only when `waitForSnapshotCompletion` is set, wait for
completion and then best-effort delete the source volume; without the
flag the function returns right after the snapshot is initiated
(lines 549-552). -/
def createSnapshot (cfg : SnapshotterConfig) (env : CreateEnv) (mountPoint : String) :
    Option CreateSnapshotOutput × List Event :=
  match env.savedInfo with
  | none => (none, [])
  | some volumeInfo =>
    let tr := [Event.runCmd "sudo" ["docker", "builder", "prune", "-f"],
               Event.runCmd "sudo" ["systemctl", "stop", "docker"],
               Event.runCmd "sudo" ["umount", mountPoint]]
    let tr := if env.umountOk then tr else tr ++ [Event.runCmd "df" [mountPoint]]
    let fatalUmount :=
      if env.umountOk then false
      else
        match env.dfResult with
        | some dfOutput => goStringContains dfOutput mountPoint
        | none => false
    if fatalUmount then (none, tr)
    else
      let tr := tr ++ [Event.detachVolumeCall volumeInfo.volumeId]
      if env.detachOk then
        let tr := tr ++ [Event.waitVolumeAvailable volumeInfo.volumeId]
        if env.waitDetachOk then
          let tr := tr ++ [Event.createSnapshotCall volumeInfo.volumeId]
          match env.createSnapshotResult with
          | none => (none, tr)
          | some newSnapshotId =>
            if cfg.waitForSnapshotCompletion then
              let tr := tr ++ [Event.waitSnapshotCompleted newSnapshotId]
              if env.waitCompletedOk then
                let tr := tr ++ [Event.deleteVolumeCall volumeInfo.volumeId]
                (some ⟨newSnapshotId⟩, tr)
              else (none, tr)
            else (some ⟨newSnapshotId⟩, tr)
        else (none, tr)
      else (none, tr)

/-- Go's `strings.Trim(s, "-")`: drop leading and trailing hyphens. -/
def trimHyphens (s : String) : String :=
  String.mk (((s.toList.dropWhile (fun c => c == '-')).reverse.dropWhile
    (fun c => c == '-')).reverse)

/-- Go's `strings.ReplaceAll(s, "/", "-")`: with a one-character pattern
and replacement this is a character-wise map. -/
def replaceSlashesWithHyphens (s : String) : String :=
  String.mk (s.toList.map (fun c => if c == '/' then '-' else c))

/-- `getVolumeInfoPath` (snapshot.go lines 159-163): replace slashes with
hyphens (`strings.ReplaceAll`), trim hyphens, and place the record under
/runs-on. -/
def getVolumeInfoPath (mountPoint : String) : String :=
  "/runs-on/" ++ "snapshot-" ++ trimHyphens (replaceSlashesWithHyphens mountPoint)
    ++ ".json"

/-- The local filesystem as a map from paths to stored VolumeInfo
records: one entry per path. -/
def VolumeInfoStore : Type := List (String × VolumeInfo)

/-- `saveVolumeInfo` (snapshot.go lines 166-184): write (overwriting) the
record at the path derived from its mount point.  The JSON
marshal/unmarshal pair of the Go standard library is modelled as faithful
serialization, so the store holds the record itself. -/
def saveVolumeInfo (store : VolumeInfoStore) (volumeInfo : VolumeInfo) : VolumeInfoStore :=
  (getVolumeInfoPath volumeInfo.mountPoint, volumeInfo) ::
    List.filter (fun kv => kv.1 != getVolumeInfoPath volumeInfo.mountPoint) store

/-- `loadVolumeInfo` (snapshot.go lines 187-200): read the record at the
path derived from the mount point. -/
def loadVolumeInfo (store : VolumeInfoStore) (mountPoint : String) : Option VolumeInfo :=
  List.lookup (getVolumeInfoPath mountPoint) store

/-- A concrete configuration: branch job without default-branch fallback,
not waiting for snapshot completion (as cmd/action/main.go configures). -/
def cfgA : SnapshotterConfig :=
  ⟨"v1", "refs/heads/main", "acme/app", "i-0abc", "us-east-1a", false, "", []⟩

/-- A concrete restore execution in which every step succeeds except the
final `mount` command. -/
def envMountFail : RestoreEnv :=
  ⟨[], true, true, some "vol-1", true, some "/dev/sdf", true, some "/dev/xvdf",
    true, [""], true, true, false, true, true, true⟩

/-- A concrete restore execution in which every step succeeds except the
`lsblk` block-device enumeration. -/
def envLsblkFail : RestoreEnv :=
  ⟨[], true, true, some "vol-1", true, some "/dev/sdf", true, some "/dev/xvdf",
    false, [""], true, true, true, true, true, true⟩

/-- A concrete restore execution in which every step succeeds. -/
def envRestoreOk : RestoreEnv :=
  ⟨[], true, true, some "vol-1", true, some "/dev/sdf", true, some "/dev/xvdf",
    true, [""], true, true, true, true, true, true⟩

/-- A concrete restore execution in which every step succeeds except the
post-mount health probe (`docker system df`). -/
def envProbeFail : RestoreEnv :=
  ⟨[], true, true, some "vol-1", true, some "/dev/sdf", true, some "/dev/xvdf",
    true, [""], true, true, true, true, false, true⟩

/-- A concrete finalize execution in which every step succeeds (df is
never consulted because the unmount succeeds). -/
def envFinalizeOk : CreateEnv :=
  ⟨some ⟨"vol-1", "/dev/xvdf", "/var/lib/docker", ""⟩, true, none, true, true,
    some "snap-9", true, true⟩

/-- Like `cfgA`, but waiting for snapshot completion. -/
def cfgWait : SnapshotterConfig :=
  ⟨"v1", "refs/heads/main", "acme/app", "i-0abc", "us-east-1a", true, "main", []⟩

/-- A feature-branch configuration with a default branch configured. -/
def cfgB : SnapshotterConfig :=
  ⟨"v1", "refs/heads/feature", "acme/app", "i-0abc", "us-east-1a", false, "main", []⟩

/-- A completed default-branch snapshot, start time 5. -/
def snapMain1 : SnapshotRecord :=
  ⟨"snap-1", 5, some 50,
    [⟨"runs-on-snapshot-branch", "v1-main"⟩, ⟨"runs-on-snapshot-repository", "acme/app"⟩],
    SnapshotState.completed⟩

/-- A completed default-branch snapshot, start time 9 (the latest). -/
def snapMain2 : SnapshotRecord :=
  ⟨"snap-2", 9, some 60,
    [⟨"runs-on-snapshot-branch", "v1-main"⟩, ⟨"runs-on-snapshot-repository", "acme/app"⟩],
    SnapshotState.completed⟩

/-- A completed snapshot whose source volume was only 8 GiB. -/
def snapSmall : SnapshotRecord :=
  ⟨"snap-s", 7, some 8,
    [⟨"runs-on-snapshot-branch", "v1-main"⟩, ⟨"runs-on-snapshot-repository", "acme/app"⟩],
    SnapshotState.completed⟩

/-- A restore environment whose snapshot world holds the two
default-branch snapshots, with every step succeeding. -/
def envWorldB : RestoreEnv :=
  ⟨[snapMain1, snapMain2], true, true, some "vol-1", true, some "/dev/sdf", true,
    some "/dev/xvdf", true, [""], true, true, true, true, true, true⟩

/-- A finalize execution whose unmount fails while `df` confirms the
mount point is still mounted. -/
def envUmountStillMounted : CreateEnv :=
  ⟨some ⟨"vol-1", "/dev/xvdf", "/var/lib/docker", ""⟩, false,
    some "/dev/xvdf 40G /var/lib/docker", true, true, some "snap-9", true, true⟩

/-- Claim C1 (code bug): with every step succeeding except the `mount`
command, `RestoreSnapshot` creates a blank volume, attempts the mount,
returns an error — and never issues `DeleteVolume` for the just-created
volume, because the failing statement assigned a shadowed block-local
`err` while the deferred cleanup consults the still-nil function-scoped
`err`.  The spec requires exactly one best-effort deletion here. -/
theorem restore_mount_failure_skips_cleanup :
    (restoreSnapshot cfgA envMountFail "/var/lib/docker").1 = none ∧
    Event.createBlankVolume ∈ (restoreSnapshot cfgA envMountFail "/var/lib/docker").2 ∧
    Event.runCmd "sudo" ["mount", "/dev/xvdf", "/var/lib/docker"]
      ∈ (restoreSnapshot cfgA envMountFail "/var/lib/docker").2 ∧
    (restoreSnapshot cfgA envMountFail "/var/lib/docker").2.countP Event.isDeleteVolume
      = 0 := by
  decide

/-- Claim C10: when the `lsblk` enumeration fails but every other step
succeeds, `RestoreSnapshot` returns a successful output for the volume
and the deferred cleanup nevertheless deletes that same volume on exit
(the function-scoped `err` set by the lsblk call is still non-nil at the
successful return). -/
theorem restore_lsblk_failure_success_still_deletes :
    (restoreSnapshot cfgA envLsblkFail "/var/lib/docker").1
      = some ⟨"vol-1", "/dev/xvdf"⟩ ∧
    Event.deleteVolumeCall "vol-1"
      ∈ (restoreSnapshot cfgA envLsblkFail "/var/lib/docker").2 ∧
    (restoreSnapshot cfgA envLsblkFail "/var/lib/docker").2.countP Event.isDeleteVolume
      = 1 := by
  decide

/-- Claim C2 (counterexample): a fully successful `CreateSnapshot` run
with `waitForSnapshotCompletion = false` (the value cmd/action/main.go
configures) returns the new snapshot id without ever calling
`DeleteVolume` on the source volume, refuting "regardless of whether
waitForCompletion is requested ... the source volume is deleted". -/
theorem createSnapshot_no_wait_skips_volume_deletion :
    (createSnapshot cfgA envFinalizeOk "/var/lib/docker").1 = some ⟨"snap-9"⟩ ∧
    (createSnapshot cfgA envFinalizeOk "/var/lib/docker").2.countP Event.isDeleteVolume
      = 0 := by
  decide

/-- The selection fold of `findLatestSnapshot`, named for the lemmas
below. -/
def latestFold (a : SnapshotRecord) (l : List SnapshotRecord) : SnapshotRecord :=
  l.foldl (fun latest snap => if latest.startTime < snap.startTime then snap else latest) a

theorem latestFold_spec (l : List SnapshotRecord) (a : SnapshotRecord) :
    (latestFold a l = a ∨ latestFold a l ∈ l) ∧
    a.startTime ≤ (latestFold a l).startTime ∧
    ∀ t ∈ l, t.startTime ≤ (latestFold a l).startTime := by
  induction l generalizing a with
  | nil => exact ⟨Or.inl rfl, le_refl _, by simp⟩
  | cons x xs ih =>
    have hstep : latestFold a (x :: xs)
        = latestFold (if a.startTime < x.startTime then x else a) xs := by
      simp [latestFold]
    by_cases hc : a.startTime < x.startTime
    · rw [hstep, if_pos hc]
      obtain ⟨hm, hx, hall⟩ := ih x
      refine ⟨?_, ?_, ?_⟩
      · rcases hm with hm | hm
        · exact Or.inr (by rw [hm]; exact List.mem_cons_self x xs)
        · exact Or.inr (List.mem_cons_of_mem x hm)
      · exact le_trans (le_of_lt hc) hx
      · intro t ht
        rcases List.mem_cons.mp ht with ht | ht
        · rw [ht]; exact hx
        · exact hall t ht
    · rw [hstep, if_neg hc]
      obtain ⟨hm, ha, hall⟩ := ih a
      refine ⟨?_, ha, ?_⟩
      · rcases hm with hm | hm
        · exact Or.inl hm
        · exact Or.inr (List.mem_cons_of_mem x hm)
      · intro t ht
        rcases List.mem_cons.mp ht with ht | ht
        · rw [ht]; exact le_trans (not_lt.mp hc) ha
        · exact hall t ht

theorem findLatestSnapshot_spec (l : List SnapshotRecord) (h : l ≠ []) :
    ∃ s, findLatestSnapshot l = some s ∧ s ∈ l ∧
      ∀ t ∈ l, t.startTime ≤ s.startTime := by
  match l with
  | [] => exact absurd rfl h
  | first :: rest =>
    obtain ⟨hm, _, hall⟩ := latestFold_spec (first :: rest) first
    refine ⟨latestFold first (first :: rest), rfl, ?_, hall⟩
    rcases hm with hm | hm
    · rw [hm]; exact List.mem_cons_self first rest
    · exact hm

theorem findLatestSnapshot_eq_none (l : List SnapshotRecord) :
    findLatestSnapshot l = none ↔ l = [] := by
  cases l <;> simp [findLatestSnapshot, latestFold]

/-- No event of the mount phase is a snapshot-clone volume creation. -/
theorem mountPhase_no_clone_event (env : RestoreEnv) (mountPoint volumeId dev : String)
    (unformatted outerErrSet : Bool) (sid : String) :
    Event.createVolumeFromSnapshot sid ∉
      (mountPhase env mountPoint volumeId dev unformatted outerErrSet).2 := by
  intro hmem
  unfold mountPhase at hmem
  dsimp only at hmem
  repeat' split at hmem
  all_goals simp_all

/-- The mount phase formats exactly when the volume was created blank:
one `mkfs.ext4` run for a blank volume, none for a cloned one, on every
path through the phase. -/
theorem mountPhase_mkfs_count (env : RestoreEnv) (mountPoint volumeId dev : String)
    (unformatted outerErrSet : Bool) :
    (mountPhase env mountPoint volumeId dev unformatted outerErrSet).2.countP Event.isMkfs
      = if unformatted then 1 else 0 := by
  unfold mountPhase
  dsimp only
  repeat' split
  all_goals simp_all [Event.isMkfs, List.countP_cons, List.countP_append]

/-- Within the mount phase, every `mkfs.ext4` run happens strictly before
the `mount` command: the pre-mount prefix of the phase trace already
carries the full format count. -/
theorem mountPhase_mkfs_before_mount (env : RestoreEnv) (mountPoint volumeId dev : String)
    (unformatted outerErrSet : Bool) :
    ((mountPhase env mountPoint volumeId dev unformatted outerErrSet).2.takeWhile
        (fun e => !e.isMount)).countP Event.isMkfs
      = if unformatted then 1 else 0 := by
  unfold mountPhase
  dsimp only
  repeat' split
  all_goals simp_all [Event.isMkfs, Event.isMount, List.countP_cons, List.countP_append,
    List.takeWhile_cons, List.takeWhile_append]

/-- The mount phase never persists the VolumeInfo record. -/
theorem mountPhase_saveInfo_count (env : RestoreEnv) (mountPoint volumeId dev : String)
    (unformatted outerErrSet : Bool) :
    (mountPhase env mountPoint volumeId dev unformatted outerErrSet).2.countP
      Event.isSaveInfo = 0 := by
  unfold mountPhase
  dsimp only
  repeat' split
  all_goals simp_all [Event.isSaveInfo, List.countP_cons, List.countP_append]

/-- If the health probe (`docker system df`) ran and failed, the mount
phase returns an error and its trace contains the unmount of the
hardcoded path /var/lib/docker. -/
theorem mountPhase_probe_failure (env : RestoreEnv) (mountPoint volumeId dev : String)
    (unformatted outerErrSet : Bool)
    (hdf : env.dockerDfOk = false)
    (hprobe : Event.runCmd "sudo" ["docker", "system", "df"]
      ∈ (mountPhase env mountPoint volumeId dev unformatted outerErrSet).2) :
    (mountPhase env mountPoint volumeId dev unformatted outerErrSet).1 = none ∧
    Event.runCmd "sudo" ["umount", "/var/lib/docker"]
      ∈ (mountPhase env mountPoint volumeId dev unformatted outerErrSet).2 := by
  unfold mountPhase at hprobe ⊢
  dsimp only at hprobe ⊢
  repeat' split at hprobe
  all_goals simp_all

/-- No event of a `restoreAfterCreate` run is a snapshot-clone volume
creation: that event can only come from the provisioning decision. -/
theorem restoreAfterCreate_no_clone_event (env : RestoreEnv) (mountPoint volumeId : String)
    (unformatted : Bool) (sid : String) :
    Event.createVolumeFromSnapshot sid ∉
      (restoreAfterCreate env mountPoint volumeId unformatted).2 := by
  intro hmem
  unfold restoreAfterCreate at hmem
  dsimp only at hmem
  repeat' split at hmem
  all_goals simp_all
  exact mountPhase_no_clone_event _ _ _ _ _ _ _ hmem

/-- Any `takeWhile` prefix of a mount-phase trace still holds no
VolumeInfo persistence event. -/
theorem mountPhase_saveInfo_takeWhile (env : RestoreEnv) (mountPoint volumeId dev : String)
    (unformatted outerErrSet : Bool) (p : Event → Bool) :
    ((mountPhase env mountPoint volumeId dev unformatted outerErrSet).2.takeWhile p).countP
      Event.isSaveInfo = 0 := by
  have h1 := (List.takeWhile_sublist
    (l := (mountPhase env mountPoint volumeId dev unformatted outerErrSet).2)
    p).countP_le Event.isSaveInfo
  have h2 := mountPhase_saveInfo_count env mountPoint volumeId dev unformatted outerErrSet
  omega

/-- No event of the mount phase creates a blank volume. -/
theorem mountPhase_no_blank_event (env : RestoreEnv) (mountPoint volumeId dev : String)
    (unformatted outerErrSet : Bool) :
    Event.createBlankVolume ∉
      (mountPhase env mountPoint volumeId dev unformatted outerErrSet).2 := by
  intro hmem
  unfold mountPhase at hmem
  dsimp only at hmem
  repeat' split at hmem
  all_goals simp_all

/-- No event of a `restoreAfterCreate` run creates a blank volume: that
event can only come from the provisioning decision. -/
theorem restoreAfterCreate_no_blank_event (env : RestoreEnv) (mountPoint volumeId : String)
    (unformatted : Bool) :
    Event.createBlankVolume ∉
      (restoreAfterCreate env mountPoint volumeId unformatted).2 := by
  intro hmem
  unfold restoreAfterCreate at hmem
  dsimp only at hmem
  repeat' split at hmem
  all_goals simp_all
  exact mountPhase_no_blank_event _ _ _ _ _ _ hmem

/-- After creation of a volume cloned from a snapshot
(`volumeIsNewAndUnformatted = false`), no path ever formats the device. -/
theorem restoreAfterCreate_clone_never_formats (env : RestoreEnv)
    (mountPoint volumeId : String) :
    (restoreAfterCreate env mountPoint volumeId false).2.countP Event.isMkfs = 0 := by
  unfold restoreAfterCreate
  dsimp only
  repeat' split
  all_goals simp_all [Event.isMkfs, List.countP_cons, List.countP_append,
    mountPhase_mkfs_count]

/-- No path after volume creation formats the device more than once. -/
theorem restoreAfterCreate_mkfs_le_one (env : RestoreEnv) (mountPoint volumeId : String)
    (unformatted : Bool) :
    (restoreAfterCreate env mountPoint volumeId unformatted).2.countP Event.isMkfs ≤ 1 := by
  unfold restoreAfterCreate
  dsimp only
  repeat' split
  all_goals simp_all [Event.isMkfs, List.countP_cons, List.countP_append,
    mountPhase_mkfs_count]
  split <;> omega

/-- If a run after volume creation reached the `mount` command, then the
pre-mount prefix of its trace holds exactly one format for a blank
volume and none for a cloned one — and so does the whole trace. -/
theorem restoreAfterCreate_mkfs_before_mount (env : RestoreEnv) (mountPoint volumeId : String)
    (unformatted : Bool)
    (hmount : (restoreAfterCreate env mountPoint volumeId unformatted).2.any
      Event.isMount = true) :
    ((restoreAfterCreate env mountPoint volumeId unformatted).2.takeWhile
        (fun e => !e.isMount)).countP Event.isMkfs = (if unformatted then 1 else 0) ∧
    (restoreAfterCreate env mountPoint volumeId unformatted).2.countP Event.isMkfs
      = (if unformatted then 1 else 0) := by
  unfold restoreAfterCreate at hmount ⊢
  dsimp only at hmount ⊢
  repeat' split at hmount
  all_goals simp_all [Event.isMkfs, Event.isMount, List.countP_cons, List.countP_append,
    List.takeWhile_cons, mountPhase_mkfs_count, mountPhase_mkfs_before_mount]
  exact mountPhase_mkfs_before_mount _ _ _ _ _ _

/-- A successful run after volume creation persisted the VolumeInfo
record exactly once, and did so before the `mount` command and before
any `mkfs.ext4`. -/
theorem restoreAfterCreate_saveInfo_on_success (env : RestoreEnv)
    (mountPoint volumeId : String) (unformatted : Bool)
    (h : (restoreAfterCreate env mountPoint volumeId unformatted).1.isSome = true) :
    (restoreAfterCreate env mountPoint volumeId unformatted).2.countP Event.isSaveInfo = 1 ∧
    ((restoreAfterCreate env mountPoint volumeId unformatted).2.takeWhile
        (fun e => !e.isMount)).countP Event.isSaveInfo = 1 ∧
    ((restoreAfterCreate env mountPoint volumeId unformatted).2.takeWhile
        (fun e => !e.isMkfs)).countP Event.isSaveInfo = 1 := by
  unfold restoreAfterCreate at h ⊢
  dsimp only at h ⊢
  repeat' split at h
  all_goals simp_all [Event.isSaveInfo, Event.isMount, Event.isMkfs, List.countP_cons,
    List.countP_append, List.takeWhile_cons, mountPhase_saveInfo_count,
    mountPhase_saveInfo_takeWhile]

/-- If the health probe ran and failed, the run after volume creation
returns an error and unmounts the hardcoded path /var/lib/docker. -/
theorem restoreAfterCreate_probe_failure (env : RestoreEnv) (mountPoint volumeId : String)
    (unformatted : Bool)
    (hdf : env.dockerDfOk = false)
    (hprobe : Event.runCmd "sudo" ["docker", "system", "df"]
      ∈ (restoreAfterCreate env mountPoint volumeId unformatted).2) :
    (restoreAfterCreate env mountPoint volumeId unformatted).1 = none ∧
    Event.runCmd "sudo" ["umount", "/var/lib/docker"]
      ∈ (restoreAfterCreate env mountPoint volumeId unformatted).2 := by
  unfold restoreAfterCreate at hprobe ⊢
  dsimp only at hprobe ⊢
  repeat' split at hprobe
  all_goals simp_all
  obtain ⟨h1, h2⟩ := mountPhase_probe_failure _ _ _ _ _ _ hdf hprobe
  exact ⟨h1, Or.inr h2⟩

/-- After creation of a cloned volume, no event of the run is a format
command at all. -/
theorem restoreAfterCreate_clone_no_mkfs_any (env : RestoreEnv)
    (mountPoint volumeId : String) :
    (restoreAfterCreate env mountPoint volumeId false).2.any Event.isMkfs = false := by
  rw [List.any_eq_false]
  intro e he
  have h0 := restoreAfterCreate_clone_never_formats env mountPoint volumeId
  rw [List.countP_eq_zero] at h0
  exact h0 e he

/-- Claim C6: in any `RestoreSnapshot` run, a format (`mkfs.ext4`)
implies the volume was created blank; a run that cloned a snapshot never
formats; no run formats twice; and a blank-volume run that reached the
`mount` command formatted exactly once, entirely before that mount. -/
theorem format_on_blank_only (cfg : SnapshotterConfig) (env : RestoreEnv)
    (mountPoint : String) :
    ((restoreSnapshot cfg env mountPoint).2.any Event.isMkfs = true →
      Event.createBlankVolume ∈ (restoreSnapshot cfg env mountPoint).2) ∧
    ((∃ sid, Event.createVolumeFromSnapshot sid ∈ (restoreSnapshot cfg env mountPoint).2) →
      (restoreSnapshot cfg env mountPoint).2.countP Event.isMkfs = 0) ∧
    ((restoreSnapshot cfg env mountPoint).2.countP Event.isMkfs ≤ 1) ∧
    (Event.createBlankVolume ∈ (restoreSnapshot cfg env mountPoint).2 →
      (restoreSnapshot cfg env mountPoint).2.any Event.isMount = true →
      (restoreSnapshot cfg env mountPoint).2.countP Event.isMkfs = 1 ∧
      ((restoreSnapshot cfg env mountPoint).2.takeWhile (fun e => !e.isMount)).countP
        Event.isMkfs = 1) := by
  refine ⟨?_, ?_, ?_, ?_⟩
  · intro hk
    unfold restoreSnapshot provisionAndMount provisionBlankAndMount at hk ⊢
    dsimp only at hk ⊢
    repeat' split at hk
    repeat' split
    all_goals simp_all [Event.isMkfs, restoreAfterCreate_clone_no_mkfs_any]
  · intro hclone
    obtain ⟨sid, hmem⟩ := hclone
    unfold restoreSnapshot provisionAndMount provisionBlankAndMount at hmem ⊢
    dsimp only at hmem ⊢
    repeat' split at hmem
    repeat' split
    all_goals simp_all [restoreAfterCreate_no_clone_event, Event.isMkfs,
      List.countP_cons, List.countP_append, restoreAfterCreate_clone_never_formats]
  · unfold restoreSnapshot provisionAndMount provisionBlankAndMount
    dsimp only
    repeat' split
    all_goals simp_all [Event.isMkfs, List.countP_cons, List.countP_append,
      restoreAfterCreate_clone_never_formats, restoreAfterCreate_mkfs_le_one]
  · intro hblank hmount
    unfold restoreSnapshot provisionAndMount provisionBlankAndMount at hblank hmount ⊢
    dsimp only at hblank hmount ⊢
    repeat' split at hblank
    repeat' split
    all_goals simp_all [restoreAfterCreate_no_blank_event, Event.isMkfs, Event.isMount,
      List.countP_cons, List.countP_append, List.takeWhile_cons,
      restoreAfterCreate_mkfs_before_mount]
    all_goals exact (restoreAfterCreate_mkfs_before_mount _ _ _ _
      (List.any_eq_true.mpr hmount)).1

/-- Claim C3: the snapshot lookup of `RestoreSnapshot` selects the
latest-start-time completed snapshot matching the branch cache key; when
none matches and a (distinct) default branch is configured, it selects
the latest matching the default-branch key; when neither query matches,
it selects nothing and the run goes on to create a blank volume. -/
theorem locateSnapshot_latest_with_fallback (cfg : SnapshotterConfig) (env : RestoreEnv)
    (mountPoint : String)
    (hD : cfg.defaultBranch ≠ "") (hDiff : cfg.defaultBranch ≠ cfg.githubRef)
    (hP : env.describePrimaryOk = true) (hDq : env.describeDefaultOk = true) :
    (describeSnapshotsByTag env.world (getSnapshotTagValue cfg)
        cfg.githubRepository cfg.customTags ≠ [] →
      ∃ s, locateSnapshot cfg env.world = some s ∧
        s ∈ describeSnapshotsByTag env.world (getSnapshotTagValue cfg)
          cfg.githubRepository cfg.customTags ∧
        ∀ t ∈ describeSnapshotsByTag env.world (getSnapshotTagValue cfg)
          cfg.githubRepository cfg.customTags, t.startTime ≤ s.startTime) ∧
    (describeSnapshotsByTag env.world (getSnapshotTagValue cfg)
        cfg.githubRepository cfg.customTags = [] →
      describeSnapshotsByTag env.world (getSnapshotTagValueDefaultBranch cfg)
        cfg.githubRepository cfg.customTags ≠ [] →
      ∃ s, locateSnapshot cfg env.world = some s ∧
        s ∈ describeSnapshotsByTag env.world (getSnapshotTagValueDefaultBranch cfg)
          cfg.githubRepository cfg.customTags ∧
        ∀ t ∈ describeSnapshotsByTag env.world (getSnapshotTagValueDefaultBranch cfg)
          cfg.githubRepository cfg.customTags, t.startTime ≤ s.startTime) ∧
    (describeSnapshotsByTag env.world (getSnapshotTagValue cfg)
        cfg.githubRepository cfg.customTags = [] →
      describeSnapshotsByTag env.world (getSnapshotTagValueDefaultBranch cfg)
        cfg.githubRepository cfg.customTags = [] →
      locateSnapshot cfg env.world = none ∧
      Event.createBlankVolume ∈ (restoreSnapshot cfg env mountPoint).2) := by
  refine ⟨?_, ?_, ?_⟩
  · intro hne
    obtain ⟨s, hs, hmem, hall⟩ := findLatestSnapshot_spec _ hne
    exact ⟨s, by simp [locateSnapshot, hs], hmem, hall⟩
  · intro hemp hne
    obtain ⟨s, hs, hmem, hall⟩ := findLatestSnapshot_spec _ hne
    refine ⟨s, ?_, hmem, hall⟩
    unfold locateSnapshot
    rw [hemp]
    simp only [show findLatestSnapshot ([] : List SnapshotRecord) = none from rfl]
    simp [bne_iff_ne, hD, hs]
  · intro hemp hdemp
    have hloc : locateSnapshot cfg env.world = none := by
      simp [locateSnapshot, hemp, hdemp, findLatestSnapshot]
    refine ⟨hloc, ?_⟩
    unfold restoreSnapshot
    rw [hP, hloc]
    simp only [hemp, findLatestSnapshot, Option.isNone_none, Bool.true_and, hDq,
      Bool.not_true, Bool.and_false, Bool.false_and]
    unfold provisionAndMount provisionBlankAndMount
    rcases env.createVolumeResult with _ | vid <;> simp [bne_iff_ne, hD]

/-- Claim C4: a located snapshot whose source-volume size is strictly
below `defaultVolumeSizeGiB` is never cloned: provisioning behaves
exactly as if no snapshot had been found (a blank default-size volume),
and no clone-creation call is ever issued. -/
theorem undersized_snapshot_treated_as_absent (env : RestoreEnv) (mountPoint : String)
    (s : SnapshotRecord) (sz : Int)
    (hsz : s.volumeSize = some sz) (hlt : sz < defaultVolumeSizeGiB) :
    provisionAndMount env mountPoint (some s) = provisionAndMount env mountPoint none ∧
    ∀ sid, Event.createVolumeFromSnapshot sid ∉
      (provisionAndMount env mountPoint (some s)).2 := by
  have hff : snapshotSizeSufficient s = false := by
    unfold snapshotSizeSufficient
    rw [hsz]
    simp only [decide_eq_false_iff_not]
    exact not_le.mpr hlt
  have heq : provisionAndMount env mountPoint (some s)
      = provisionAndMount env mountPoint none := by
    simp [provisionAndMount, hff]
  refine ⟨heq, fun sid => ?_⟩
  rw [heq]
  unfold provisionAndMount provisionBlankAndMount
  rcases env.createVolumeResult with _ | vid
  · simp
  · simpa using restoreAfterCreate_no_clone_event env mountPoint vid true sid

/-- Claim C2 (amended): in `CreateSnapshot` the source volume recorded in
the VolumeInfo record is deleted (best-effort) only on the
`waitForSnapshotCompletion` path: a successful run with the flag set
issues exactly one `DeleteVolume` for that volume; with the flag unset
(as cmd/action/main.go configures) no `DeleteVolume` is ever issued; and
the deletion outcome never changes the returned result. -/
theorem createSnapshot_deletes_source_only_when_waiting
    (cfg : SnapshotterConfig) (env : CreateEnv) (mountPoint : String) (info : VolumeInfo)
    (h1 : env.savedInfo = some info) :
    ((createSnapshot cfg env mountPoint).1.isSome = true →
      cfg.waitForSnapshotCompletion = true →
      (createSnapshot cfg env mountPoint).2.countP Event.isDeleteVolume = 1 ∧
      Event.deleteVolumeCall info.volumeId ∈ (createSnapshot cfg env mountPoint).2) ∧
    (cfg.waitForSnapshotCompletion = false →
      (createSnapshot cfg env mountPoint).2.countP Event.isDeleteVolume = 0) ∧
    (∀ b : Bool,
      (createSnapshot cfg
        ⟨env.savedInfo, env.umountOk, env.dfResult, env.detachOk, env.waitDetachOk,
          env.createSnapshotResult, env.waitCompletedOk, b⟩ mountPoint).1
        = (createSnapshot cfg env mountPoint).1) := by
  refine ⟨?_, ?_, fun b => rfl⟩
  · intro hsome hwait
    unfold createSnapshot at hsome ⊢
    rw [h1] at hsome ⊢
    rw [hwait] at hsome ⊢
    simp only [] at hsome ⊢
    repeat' split at hsome
    all_goals simp_all [Event.isDeleteVolume, List.countP_cons, List.countP_append]
  · intro hfalse
    unfold createSnapshot
    rw [h1, hfalse]
    simp only []
    repeat' split
    all_goals simp_all [Event.isDeleteVolume, List.countP_cons, List.countP_append]

/-- Claim C8: when the unmount of the mount point fails in
`CreateSnapshot`, the failure is fatal exactly when the subsequent `df`
check succeeds and its output still contains the mount point (the run
stops before `DetachVolume`); when the check fails or shows the mount
point absent, the run's result is the same as if the unmount had
succeeded. -/
theorem createSnapshot_umount_failure_fatal_iff_df_confirms
    (cfg : SnapshotterConfig) (env : CreateEnv) (mountPoint : String) (info : VolumeInfo)
    (h1 : env.savedInfo = some info) (h2 : env.umountOk = false) :
    (∀ out, env.dfResult = some out → goStringContains out mountPoint = true →
      (createSnapshot cfg env mountPoint).1 = none ∧
      Event.detachVolumeCall info.volumeId ∉ (createSnapshot cfg env mountPoint).2) ∧
    ((env.dfResult = none ∨
        ∃ out, env.dfResult = some out ∧ goStringContains out mountPoint = false) →
      (createSnapshot cfg env mountPoint).1
        = (createSnapshot cfg
            ⟨env.savedInfo, true, env.dfResult, env.detachOk, env.waitDetachOk,
              env.createSnapshotResult, env.waitCompletedOk, env.deleteVolumeOk⟩
            mountPoint).1) := by
  constructor
  · intro out hdf hcontains
    unfold createSnapshot
    rw [h1]
    simp only [h2, hdf, hcontains]
    simp [Event.isDeleteVolume]
  · intro hnot
    unfold createSnapshot
    rw [h1]
    simp only [h2]
    rcases hnot with hnone | ⟨out, hdf, hfalse⟩
    · simp only [hnone]
      repeat' split
      all_goals simp_all
    · simp only [hdf, hfalse]
      repeat' split
      all_goals simp_all

/-- Claim C5 (counterexample): restoring to mount point /mnt/cache with
the health probe failing, `RestoreSnapshot` does fail — but the only
unmount it issues after the mount targets the hardcoded path
/var/lib/docker, and the post-mount suffix of the trace holds no unmount
of the mount point it was given, refuting "unmounts the mountPoint". -/
theorem restore_probe_failure_ignores_given_mount_point :
    (restoreSnapshot cfgA envProbeFail "/mnt/cache").1 = none ∧
    Event.runCmd "sudo" ["umount", "/var/lib/docker"]
      ∈ (restoreSnapshot cfgA envProbeFail "/mnt/cache").2 ∧
    ((restoreSnapshot cfgA envProbeFail "/mnt/cache").2.dropWhile
        (fun e => !e.isMount)).countP
      (fun e => e == Event.runCmd "sudo" ["umount", "/mnt/cache"]) = 0 := by
  decide

/-- Claim C5 (amended): if the post-mount health probe ran and failed,
`RestoreSnapshot` returns an error rather than succeeding with a broken
cache, and it attempts to unmount the hardcoded docker directory
/var/lib/docker (the mount point of the action's only call site) — not
necessarily the mountPoint it was given. -/
theorem restore_probe_failure_fails_and_unmounts_docker_dir
    (cfg : SnapshotterConfig) (env : RestoreEnv) (mountPoint : String)
    (hdf : env.dockerDfOk = false)
    (hprobe : Event.runCmd "sudo" ["docker", "system", "df"]
      ∈ (restoreSnapshot cfg env mountPoint).2) :
    (restoreSnapshot cfg env mountPoint).1 = none ∧
    Event.runCmd "sudo" ["umount", "/var/lib/docker"]
      ∈ (restoreSnapshot cfg env mountPoint).2 := by
  unfold restoreSnapshot provisionAndMount provisionBlankAndMount at hprobe ⊢
  dsimp only at hprobe ⊢
  repeat' split at hprobe
  repeat' split
  all_goals simp_all
  all_goals
    obtain ⟨h1, h2⟩ := restoreAfterCreate_probe_failure _ _ _ _ hdf hprobe
  all_goals exact ⟨h1, h2⟩

/-- Claim C9 (counterexample): in a fully successful blank-volume
restore, the VolumeInfo record is persisted strictly before the device
is formatted and mounted: the pre-format and pre-mount prefixes of the
trace already hold the persistence event, refuting "persisted only at
the end — never before the mount succeeds". -/
theorem restore_saves_info_before_format_and_mount :
    (restoreSnapshot cfgA envRestoreOk "/var/lib/docker").1.isSome = true ∧
    ((restoreSnapshot cfgA envRestoreOk "/var/lib/docker").2.takeWhile
        (fun e => !e.isMkfs)).countP Event.isSaveInfo = 1 ∧
    ((restoreSnapshot cfgA envRestoreOk "/var/lib/docker").2.takeWhile
        (fun e => !e.isMount)).countP Event.isSaveInfo = 1 := by
  decide

/-- Claim C9 (amended): every successful `RestoreSnapshot` run persists
the VolumeInfo record exactly once, and does so after device-name
resolution but before any formatting and before the mount — not at the
end of the mount orchestration. -/
theorem restore_success_saves_info_once_before_mount
    (cfg : SnapshotterConfig) (env : RestoreEnv) (mountPoint : String)
    (h : (restoreSnapshot cfg env mountPoint).1.isSome = true) :
    (restoreSnapshot cfg env mountPoint).2.countP Event.isSaveInfo = 1 ∧
    ((restoreSnapshot cfg env mountPoint).2.takeWhile
        (fun e => !e.isMount)).countP Event.isSaveInfo = 1 ∧
    ((restoreSnapshot cfg env mountPoint).2.takeWhile
        (fun e => !e.isMkfs)).countP Event.isSaveInfo = 1 := by
  unfold restoreSnapshot provisionAndMount provisionBlankAndMount at h ⊢
  dsimp only at h ⊢
  repeat' split at h
  repeat' split
  all_goals simp_all [Event.isSaveInfo, Event.isMount, Event.isMkfs, List.countP_cons,
    List.countP_append, List.takeWhile_cons]
  all_goals exact restoreAfterCreate_saveInfo_on_success _ _ _ _ h

/-- Claim C7: saving a VolumeInfo record and loading it back for the same
mount point yields the identical record; a second save for the same path
overwrites (the load returns the newer record); the store keeps exactly
one record per mount-point path; and the path is the deterministic
sanitization of the mount point (slashes to hyphens, hyphens trimmed),
e.g. for /var/lib/docker. -/
theorem volumeInfo_roundtrip_and_overwrite (store : VolumeInfoStore) (i1 i2 : VolumeInfo) :
    loadVolumeInfo (saveVolumeInfo store i1) i1.mountPoint = some i1 ∧
    loadVolumeInfo (saveVolumeInfo (saveVolumeInfo store i1) i2) i2.mountPoint = some i2 ∧
    (saveVolumeInfo store i1).countP
      (fun kv => kv.1 == getVolumeInfoPath i1.mountPoint) = 1 ∧
    getVolumeInfoPath "/var/lib/docker" = "/runs-on/snapshot-var-lib-docker.json" := by
  refine ⟨?_, ?_, ?_, by decide⟩
  · simp [loadVolumeInfo, saveVolumeInfo, List.lookup]
  · simp [loadVolumeInfo, saveVolumeInfo, List.lookup]
  · have hzero : (List.filter (fun kv => kv.1 != getVolumeInfoPath i1.mountPoint) store).countP
        (fun kv => kv.1 == getVolumeInfoPath i1.mountPoint) = 0 := by
      rw [List.countP_eq_zero]
      intro kv hkv
      have h := (List.mem_filter.mp hkv).2
      simpa using h
    simp [saveVolumeInfo, List.countP_cons, hzero]

/-- Witness for the C3 theorem: on the feature branch with no matching
snapshot, the lookup falls back to the default branch and picks the
latest of its two completed snapshots. -/
theorem locateSnapshot_latest_with_fallback_witness :
    ∃ s, locateSnapshot cfgB envWorldB.world = some s ∧
      s ∈ describeSnapshotsByTag envWorldB.world (getSnapshotTagValueDefaultBranch cfgB)
        cfgB.githubRepository cfgB.customTags ∧
      ∀ t ∈ describeSnapshotsByTag envWorldB.world (getSnapshotTagValueDefaultBranch cfgB)
        cfgB.githubRepository cfgB.customTags, t.startTime ≤ s.startTime :=
  (locateSnapshot_latest_with_fallback cfgB envWorldB "/var/lib/docker"
    (by decide) (by decide) (by decide) (by decide)).2.1 (by decide) (by decide)

/-- Witness for the C4 theorem: an 8 GiB snapshot is provisioned exactly
like no snapshot at all. -/
theorem undersized_snapshot_treated_as_absent_witness :
    provisionAndMount envRestoreOk "/var/lib/docker" (some snapSmall)
      = provisionAndMount envRestoreOk "/var/lib/docker" none ∧
    ∀ sid, Event.createVolumeFromSnapshot sid ∉
      (provisionAndMount envRestoreOk "/var/lib/docker" (some snapSmall)).2 :=
  undersized_snapshot_treated_as_absent envRestoreOk "/var/lib/docker" snapSmall 8
    (by decide) (by decide)

/-- Witness for the C6 theorem: the fully successful blank-volume run
formats exactly once, before the mount. -/
theorem format_on_blank_only_witness :
    (restoreSnapshot cfgA envRestoreOk "/var/lib/docker").2.countP Event.isMkfs = 1 ∧
    ((restoreSnapshot cfgA envRestoreOk "/var/lib/docker").2.takeWhile
        (fun e => !e.isMount)).countP Event.isMkfs = 1 :=
  (format_on_blank_only cfgA envRestoreOk "/var/lib/docker").2.2.2 (by decide) (by decide)

/-- Witness for the amended C5 theorem at a mount point other than the
docker directory. -/
theorem restore_probe_failure_fails_and_unmounts_docker_dir_witness :
    (restoreSnapshot cfgA envProbeFail "/mnt/cache").1 = none ∧
    Event.runCmd "sudo" ["umount", "/var/lib/docker"]
      ∈ (restoreSnapshot cfgA envProbeFail "/mnt/cache").2 :=
  restore_probe_failure_fails_and_unmounts_docker_dir cfgA envProbeFail "/mnt/cache"
    (by decide) (by decide)

/-- Witness for the amended C9 theorem on the fully successful run. -/
theorem restore_success_saves_info_once_before_mount_witness :
    (restoreSnapshot cfgA envRestoreOk "/var/lib/docker").2.countP Event.isSaveInfo = 1 ∧
    ((restoreSnapshot cfgA envRestoreOk "/var/lib/docker").2.takeWhile
        (fun e => !e.isMount)).countP Event.isSaveInfo = 1 ∧
    ((restoreSnapshot cfgA envRestoreOk "/var/lib/docker").2.takeWhile
        (fun e => !e.isMkfs)).countP Event.isSaveInfo = 1 :=
  restore_success_saves_info_once_before_mount cfgA envRestoreOk "/var/lib/docker" (by decide)

/-- Witness for the amended C2 theorem: with `waitForSnapshotCompletion`
set, a successful finalize deletes the source volume exactly once. -/
theorem createSnapshot_deletes_source_only_when_waiting_witness :
    (createSnapshot cfgWait envFinalizeOk "/var/lib/docker").2.countP
      Event.isDeleteVolume = 1 ∧
    Event.deleteVolumeCall "vol-1"
      ∈ (createSnapshot cfgWait envFinalizeOk "/var/lib/docker").2 :=
  (createSnapshot_deletes_source_only_when_waiting cfgWait envFinalizeOk "/var/lib/docker"
    ⟨"vol-1", "/dev/xvdf", "/var/lib/docker", ""⟩ (by decide)).1 (by decide) (by decide)

/-- Witness for the C8 theorem: with the unmount failing and `df` still
showing the mount point, the finalize run is fatal before any detach. -/
theorem createSnapshot_umount_failure_fatal_iff_df_confirms_witness :
    (createSnapshot cfgA envUmountStillMounted "/var/lib/docker").1 = none ∧
    Event.detachVolumeCall "vol-1"
      ∉ (createSnapshot cfgA envUmountStillMounted "/var/lib/docker").2 :=
  (createSnapshot_umount_failure_fatal_iff_df_confirms cfgA envUmountStillMounted
    "/var/lib/docker" ⟨"vol-1", "/dev/xvdf", "/var/lib/docker", ""⟩
    (by decide) (by decide)).1 "/dev/xvdf 40G /var/lib/docker" (by decide) (by decide)
